import Mathlib

/-!
Shallow embedding of `Postman_ST_v1.py` (Tower--AI front-end script) and
verification of its specification claims.

The script forwards uploaded images to a remote API, records the JSON
response into a CSV file (`save_results_to_csv`), draws detection boxes
onto the image (`draw_bounding_boxes`), and drives the per-image flow with
error reporting (`process_image`).  File writes, UI calls and the drawing
library are modelled as explicit effect / drawing-command values; numbers
that Python holds as floats (confidences, font scales) are modelled as
exact rationals.
-/

namespace TowerAI

/-- One detection reported by the remote API:
`{class_name: str, bbox: [x1, y1, x2, y2], confidence: float}`.
The spec's data model fixes `bbox` as four integers, so it is a quadruple
here; `confidence` is an exact rational in place of the float. -/
structure Detection where
  class_name : String
  bbox : Int × Int × Int × Int
  confidence : Rat
deriving DecidableEq

/-- Python `str` of the four-element JSON list `[x1, y1, x2, y2]`, as the
f-string `f"{bbox}"` renders it: elements separated by a comma and a space. -/
def pyListRepr : Int × Int × Int × Int → String
  | (a, b, c, d) =>
      "[" ++ toString a ++ ", " ++ toString b ++ ", " ++ toString c ++
        ", " ++ toString d ++ "]"

/-- The decimal digit character for `n % 10`. -/
def digitChar (n : Nat) : Char := Char.ofNat (48 + n % 10)

/-- Python format spec `:.2f` on a non-negative value `q`: two digits after
the decimal point.  The number of hundredths is `round(q * 100)`, written
here directly on the reduced fraction:
`⌊q * 100 + 1/2⌋ = (200 * num + den) / (2 * den)` for `den > 0, num ≥ 0`.
(Python rounds the underlying binary double to nearest; the two agree at
every value this program produces, none of which is a tie at hundredths.) -/
def fmt2f (q : Rat) : String :=
  let n : Nat := ((200 * q.num + (q.den : Int)) / (2 * (q.den : Int))).toNat
  toString (n / 100) ++ "." ++ String.mk [digitChar (n / 10), digitChar n]

/-- Python `f"{q*100:.1f}"` on a non-negative value `q` — the percentage
with one digit after the decimal point, used in bounding-box labels.  The
number of tenths of a percent is `round(q * 1000)`, written directly on the
reduced fraction as for `fmt2f`. -/
def fmtPct (q : Rat) : String :=
  let n : Nat := ((2000 * q.num + (q.den : Int)) / (2 * (q.den : Int))).toNat
  toString (n / 10) ++ "." ++ String.mk [digitChar n]

/-- The CSV header written once when the file is first created
(`Postman_ST_v1.py` line 25), without the trailing newline. -/
def headerLine : String :=
  "Image Name,Extracted Text,Total Antennas,Class Name,Bounding Box (x1,y1,x2,y2),Confidence Score"

/-- The text row of `save_results_to_csv` (lines 30-33).  Python's
`if extracted_text:` is truth-testing a string, i.e. non-emptiness.  Note
both f-strings end in `,,,, ` — four empty fields and a final field holding
a single space — before the newline. -/
def textRow (image_name extracted_text : String) : String :=
  if extracted_text ≠ "" then
    image_name ++ "," ++ extracted_text ++ ",,,, "
  else
    image_name ++ ",No text found,,,, "

/-- One detection row (line 40): the Total Antennas column holds the length
of the whole detection list, then class name, bbox repr, and the
`:.2f`-formatted confidence. -/
def detectionRow (image_name : String) (total : Nat) (d : Detection) : String :=
  image_name ++ ",," ++ toString total ++ "," ++ d.class_name ++ "," ++
    pyListRepr d.bbox ++ "," ++ fmt2f d.confidence

/-- The detection-side rows of `save_results_to_csv` (lines 35-42): one row
per detection when the list is non-empty, else the single
`,,0,No detection,N/A,N/A` row. -/
def detectionRows (image_name : String) (ds : List Detection) : List String :=
  match ds with
  | [] => [image_name ++ ",,0,No detection,N/A,N/A"]
  | _ => ds.map (detectionRow image_name ds.length)

/-- `save_results_to_csv` (lines 27-42): the list of CSV lines appended for
one processed image, in order — first the text row, then the detection
rows.  Each element is one line of the file (newline separator left to the
file model). -/
def save_results_to_csv (image_name extracted_text : String)
    (ds : List Detection) : List String :=
  textRow image_name extracted_text :: detectionRows image_name ds

end TowerAI

namespace TowerAI

/-- The detection of the spec's end-to-end example:
`{"class_name": "panel", "bbox": [10, 10, 50, 60], "confidence": 0.87}`. -/
def panelDetection : Detection :=
  ⟨"panel", (10, 10, 50, 60), Rat.mk' 87 100 (by norm_num) (by norm_num)⟩

end TowerAI

namespace TowerAI

/-- The whitespace set of Python `str.strip()` with no argument (its ASCII
part, which is what the claims quantify over): space, tab, newline,
carriage return, vertical tab, form feed. -/
def pyWhitespace (c : Char) : Bool :=
  c = ' ' || c = '\t' || c = '\n' || c = '\r' || c = '\x0b' || c = '\x0c'

/-- Python `str.strip()`: drop leading and trailing whitespace
(`process_image` line 97 applies it to the `all_text` field). -/
def pyStrip (s : String) : String :=
  String.mk (((s.data.dropWhile pyWhitespace).reverse.dropWhile pyWhitespace).reverse)

/-- An in-memory image as far as `draw_bounding_boxes` inspects it: its
shape.  `cv2.imread` returning `None` for an unreadable file is modelled by
passing `none` for the image. -/
structure Image where
  height : Nat
  width : Nat
deriving DecidableEq

/-- One call into the drawing library (`cv2.rectangle` / `cv2.putText`),
recorded with the arguments the script passes.  Colors are BGR triples;
rectangle thickness `-1` means filled. -/
inductive DrawCmd where
  | rectangle (p1 p2 : Int × Int) (color : Nat × Nat × Nat) (thickness : Int)
  | putText (label : String) (org : Int × Int) (fontScale : Rat)
      (color : Nat × Nat × Nat) (thickness : Nat)
deriving DecidableEq

/-- `draw_bounding_boxes` (lines 44-77).  `cv2.getTextSize` is an external
library call, modelled as an arbitrary function `getTextSize` from label,
font scale and text thickness to `(text_width, text_height)`.  Returns
`none` when the image could not be loaded (line 47-48), otherwise the
drawing commands issued, in order: for each detection the green box, the
filled black label background, and the white label text. -/
def draw_bounding_boxes (image : Option Image) (antenna_detections : List Detection)
    (getTextSize : String → Rat → Nat → Nat × Nat) : Option (List DrawCmd) :=
  match image with
  | none => none
  | some img =>
    let width := img.width
    let box_thickness : Nat := max 3 (width / 300)
    let font_scale : Rat := max (6 / 10) ((width : Rat) / 1200)
    let text_thickness : Nat := max 2 (width / 600)
    some ((antenna_detections.map (fun d =>
      let x1 := d.bbox.1
      let y1 := d.bbox.2.1
      let x2 := d.bbox.2.2.1
      let y2 := d.bbox.2.2.2
      let label := d.class_name ++ " (" ++ fmtPct d.confidence ++ "%)"
      let ts := getTextSize label font_scale text_thickness
      let text_width := ts.1
      let text_height := ts.2
      let text_x := x1
      let text_y : Int := max (y1 - 10) ((text_height : Int) + 10)
      [DrawCmd.rectangle (x1, y1) (x2, y2) (0, 255, 0) (box_thickness : Int),
       DrawCmd.rectangle (text_x, text_y - (text_height : Int) - 5)
         (text_x + (text_width : Int), text_y + 5) (0, 0, 0) (-1),
       DrawCmd.putText label (text_x, text_y) font_scale (255, 255, 255)
         text_thickness])).flatten)

/-- The parsed JSON body of a 200 response.  `all_text = none` models an
absent `text_detections.all_text` field, which the chained `.get` calls
default to `""`. -/
structure ApiResponse where
  all_text : Option String
  antenna_detections : List Detection
deriving DecidableEq

/-- An HTTP response: status code and (for the paths the script takes on
status 200) the parsed JSON body. -/
structure HttpResponse where
  status_code : Nat
  body : ApiResponse
deriving DecidableEq

/-- Folder constants of the script (lines 14-15). -/
def RESULTS_FOLDER : String := "API_results"

def ANNOTATED_FOLDER : String := "API_annotated"

/-- Observable actions of `process_image`: UI messages, the CSV append,
the uploaded-file write, the annotated-image write, and the display calls. -/
inductive Effect where
  | sidebarWrite (msg : String)
  | saveUpload (path : String)
  | csvAppend (rows : List String)
  | sidebarSuccess (msg : String)
  | showText (s : String)
  | showTable (ds : List Detection)
  | imwrite (path : String) (cmds : List DrawCmd)
  | showImages (originalPath : String) (cmds : List DrawCmd)
  | downloadButton (fileName : String)
  | sidebarError (msg : String)
deriving DecidableEq

/-- The effects of the success branch of `process_image` (lines 94-129):
CSV append, success message, extracted-text display, and — only when
detections exist — the table plus, if the image loaded, the annotated-image
write, the side-by-side display and the download button. -/
def successEffects (name : String) (img : Option Image)
    (gts : String → Rat → Nat → Nat × Nat) (resp : ApiResponse) : List Effect :=
  let extracted_text := pyStrip (resp.all_text.getD "")
  let dets := resp.antenna_detections
  [Effect.csvAppend (save_results_to_csv name extracted_text dets),
   Effect.sidebarSuccess ("✅ Processed: " ++ name),
   Effect.showText (if extracted_text ≠ "" then extracted_text else "No text found")]
  ++ match dets with
     | [] => []
     | _ :: _ =>
       Effect.showTable dets ::
       match draw_bounding_boxes img dets gts with
       | none => []
       | some cmds =>
         [Effect.imwrite (ANNOTATED_FOLDER ++ "/" ++ name) cmds,
          Effect.showImages (RESULTS_FOLDER ++ "/" ++ name) cmds,
          Effect.downloadButton ("annotated_" ++ name)]

/-- What happened inside the `try` block: either the POST returned a
response (and the body, if needed, parsed), or somewhere an exception was
raised — `raised pre msg` records the effects performed before the raise
and the exception's message. -/
inductive TryInput where
  | response (resp : HttpResponse)
  | raised (pre : List Effect) (msg : String)

/-- The `try` block of `process_image` (lines 84-132): save the upload,
post it, then branch on the status code.  An exception is an
`Except.error`; the non-200 branch reports the status code and does
nothing else. -/
def processTry (name : String) (img : Option Image)
    (gts : String → Rat → Nat → Nat × Nat) :
    TryInput → Except (List Effect × String) (List Effect)
  | .raised pre msg => .error (pre, msg)
  | .response r =>
      if r.status_code = 200 then
        .ok (Effect.saveUpload (RESULTS_FOLDER ++ "/" ++ name) ::
          successEffects name img gts r.body)
      else
        .ok [Effect.saveUpload (RESULTS_FOLDER ++ "/" ++ name),
             Effect.sidebarError ("❌ API Error: " ++ toString r.status_code)]

/-- `process_image` (lines 79-135): the progress message, then the `try`
body; any raised exception is caught by the `except` clause and reported
with its message.  The function always returns a plain effect list — in
this embedding an uncaught exception would be a distinguished result, and
there is none. -/
def process_image (name : String) (img : Option Image)
    (gts : String → Rat → Nat → Nat × Nat) (t : TryInput) : List Effect :=
  Effect.sidebarWrite ("🔄 Processing " ++ name ++ "...") ::
    match processTry name img gts t with
    | .ok effs => effs
    | .error (pre, msg) =>
        pre ++ [Effect.sidebarError ("⚠️ Error processing image: " ++ msg)]

/-- Batch mode (lines 151-154): each uploaded file is processed in turn by
`process_image`. -/
def processBatch (gts : String → Rat → Nat → Nat × Nat) :
    List (String × Option Image × TryInput) → List Effect
  | [] => []
  | item :: rest => process_image item.1 item.2.1 gts item.2.2 ++ processBatch gts rest

end TowerAI

namespace TowerAI

/-- The arguments of one `save_results_to_csv` call. -/
structure SaveCall where
  image_name : String
  extracted_text : String
  detections : List Detection

/-- Module-level CSV initialization (lines 23-25): when the file does not
exist (`none`), create it holding just the header; otherwise leave it
untouched.  The file is modelled as its list of lines. -/
def initCsv : Option (List String) → List String
  | none => [headerLine]
  | some ls => ls

/-- A sequence of `save_results_to_csv` calls, each opening the file in
append mode (line 29) and adding its lines at the end. -/
def appendSaves : List String → List SaveCall → List String
  | ls, [] => ls
  | ls, c :: cs =>
      appendSaves (ls ++ save_results_to_csv c.image_name c.extracted_text c.detections) cs

/-- One run of the script against the CSV file: the module-level header
initialization, then the session's save calls. -/
def runOnce (file : Option (List String)) (calls : List SaveCall) : List String :=
  appendSaves (initCsv file) calls

/-- A sequence of runs against the same CSV file, starting from a given
file state (`none` = the file does not exist yet). -/
def runAll : Option (List String) → List (List SaveCall) → Option (List String)
  | file, [] => file
  | file, calls :: rest => runAll (some (runOnce file calls)) rest

/-- Split a character list at commas (the accumulator holds the current
field reversed). -/
def splitCommaAux : List Char → List Char → List (List Char)
  | [], acc => [acc.reverse]
  | c :: cs, acc =>
      if c = ',' then acc.reverse :: splitCommaAux cs []
      else splitCommaAux cs (c :: acc)

/-- The comma-separated fields of one CSV line, as a CSV reader with no
quoting rules sees them. -/
def numFields (s : String) : Nat := (splitCommaAux s.data []).length

end TowerAI

namespace TowerAI

/-- C1 (as stated) is false on the code: for a 200 response with empty
`antenna_detections` and non-empty text, `save_results_to_csv` appends two
rows — the text row and the `No detection` row — not exactly one. -/
theorem C1_counterexample :
    ¬ (save_results_to_csv "tower1.jpg" "TWR-001" []).length = 1 := by decide

/-- C1 (amended): for empty `antenna_detections` and non-empty extracted
text, the recorder appends exactly one text row containing that text with
blank detection fields (the last holding a single space), followed by
exactly one `No detection` row — two rows in total for that image. -/
theorem C1_text_and_no_detection_rows (image_name extracted_text : String)
    (h : extracted_text ≠ "") :
    save_results_to_csv image_name extracted_text [] =
      [image_name ++ "," ++ extracted_text ++ ",,,, ",
       image_name ++ ",,0,No detection,N/A,N/A"] := by
  simp [save_results_to_csv, textRow, detectionRows, h]

theorem C1_witness :
    ("TWR-001" : String) ≠ "" ∧
      save_results_to_csv "tower1.jpg" "TWR-001" [] =
        ["tower1.jpg" ++ "," ++ "TWR-001" ++ ",,,, ",
         "tower1.jpg" ++ ",,0,No detection,N/A,N/A"] :=
  ⟨by decide, C1_text_and_no_detection_rows "tower1.jpg" "TWR-001" (by decide)⟩

/-- C2: for a response with `N ≥ 1` detections the recorder appends the
text row plus exactly `N` detection rows, and every detection row's Total
Antennas field is `N` (`detectionRow` puts `toString N` in that column). -/
theorem C2_detection_rows_count (image_name extracted_text : String)
    (ds : List Detection) (h : ds ≠ []) :
    save_results_to_csv image_name extracted_text ds =
      textRow image_name extracted_text ::
        ds.map (detectionRow image_name ds.length) ∧
    (save_results_to_csv image_name extracted_text ds).length = ds.length + 1 := by
  obtain ⟨d, t, rfl⟩ := List.exists_cons_of_ne_nil h
  exact ⟨rfl, by simp [save_results_to_csv, detectionRows]⟩

theorem C2_witness :
    ([panelDetection] : List Detection) ≠ [] ∧
      (save_results_to_csv "tower1.jpg" "TWR-001" [panelDetection] =
        textRow "tower1.jpg" "TWR-001" ::
          [panelDetection].map (detectionRow "tower1.jpg" [panelDetection].length) ∧
      (save_results_to_csv "tower1.jpg" "TWR-001" [panelDetection]).length =
        [panelDetection].length + 1) :=
  ⟨by decide, C2_detection_rows_count "tower1.jpg" "TWR-001" [panelDetection] (by decide)⟩

/-- C3: for an empty detection list the detection-side output is exactly
one row, with `No detection` in the Class Name column and `N/A` in the
Bounding Box and Confidence columns. -/
theorem C3_empty_detections_na_row (image_name extracted_text : String) :
    detectionRows image_name [] = [image_name ++ ",,0,No detection,N/A,N/A"] ∧
    save_results_to_csv image_name extracted_text [] =
      [textRow image_name extracted_text,
       image_name ++ ",,0,No detection,N/A,N/A"] :=
  ⟨rfl, rfl⟩

end TowerAI

namespace TowerAI

theorem C7_counterexample :
    save_results_to_csv "tower1.jpg" "TWR-001" [panelDetection] ≠
      ["tower1.jpg,TWR-001,,,,", "tower1.jpg,,1,panel,[10, 10, 50, 60],0.87"] := by
  decide

theorem C7_end_to_end (img : Image) (getTextSize : String → Rat → Nat → Nat × Nat) :
    save_results_to_csv "tower1.jpg" "TWR-001" [panelDetection] =
      ["tower1.jpg,TWR-001,,,, ", "tower1.jpg,,1,panel,[10, 10, 50, 60],0.87"] ∧
    ∃ cmds, draw_bounding_boxes (some img) [panelDetection] getTextSize = some cmds ∧
      (∃ t, DrawCmd.rectangle (10, 10) (50, 60) (0, 255, 0) t ∈ cmds) ∧
      (∃ org fs tt, DrawCmd.putText "panel (87.0%)" org fs (255, 255, 255) tt ∈ cmds) := by
  have hdraw : draw_bounding_boxes (some img) [panelDetection] getTextSize =
      some [DrawCmd.rectangle (10, 10) (50, 60) (0, 255, 0)
              ((max 3 (img.width / 300) : Nat) : Int),
            DrawCmd.rectangle
              (10, max ((10 : Int) - 10)
                     (((getTextSize "panel (87.0%)"
                         (max (6 / 10) ((img.width : Rat) / 1200))
                         (max 2 (img.width / 600))).2 : Int) + 10) -
                   ((getTextSize "panel (87.0%)"
                       (max (6 / 10) ((img.width : Rat) / 1200))
                       (max 2 (img.width / 600))).2 : Int) - 5)
              (10 + ((getTextSize "panel (87.0%)"
                       (max (6 / 10) ((img.width : Rat) / 1200))
                       (max 2 (img.width / 600))).1 : Int),
               max ((10 : Int) - 10)
                     (((getTextSize "panel (87.0%)"
                         (max (6 / 10) ((img.width : Rat) / 1200))
                         (max 2 (img.width / 600))).2 : Int) + 10) + 5)
              (0, 0, 0) (-1),
            DrawCmd.putText "panel (87.0%)"
              (10, max ((10 : Int) - 10)
                     (((getTextSize "panel (87.0%)"
                         (max (6 / 10) ((img.width : Rat) / 1200))
                         (max 2 (img.width / 600))).2 : Int) + 10))
              (max (6 / 10) ((img.width : Rat) / 1200)) (255, 255, 255)
              (max 2 (img.width / 600))] := rfl
  refine ⟨by decide, _, hdraw, ?_, ?_⟩
  · exact ⟨_, List.mem_cons_self _ _⟩
  · exact ⟨_, _, _,
      List.mem_cons_of_mem _ (List.mem_cons_of_mem _ (List.mem_cons_self _ _))⟩

end TowerAI

namespace TowerAI

/-- C5: for a non-200 response, `process_image` emits only the progress
message, the temporary upload write, and the API-error message carrying
the status code — in particular no CSV append and no annotated-image
write — and nothing further happens for that image. -/
theorem C5_non_200_no_output (name : String) (img : Option Image)
    (gts : String → Rat → Nat → Nat × Nat) (r : HttpResponse)
    (h : r.status_code ≠ 200) :
    process_image name img gts (.response r) =
      [Effect.sidebarWrite ("🔄 Processing " ++ name ++ "..."),
       Effect.saveUpload (RESULTS_FOLDER ++ "/" ++ name),
       Effect.sidebarError ("❌ API Error: " ++ toString r.status_code)] ∧
    (∀ rows, Effect.csvAppend rows ∉ process_image name img gts (.response r)) ∧
    (∀ p cmds, Effect.imwrite p cmds ∉ process_image name img gts (.response r)) := by
  have hp : process_image name img gts (.response r) =
      [Effect.sidebarWrite ("🔄 Processing " ++ name ++ "..."),
       Effect.saveUpload (RESULTS_FOLDER ++ "/" ++ name),
       Effect.sidebarError ("❌ API Error: " ++ toString r.status_code)] := by
    simp [process_image, processTry, h]
  refine ⟨hp, ?_, ?_⟩
  · intro rows; rw [hp]; simp
  · intro p cmds; rw [hp]; simp

theorem C5_witness :
    (404 : Nat) ≠ 200 ∧
      (process_image "tower1.jpg" none (fun _ _ _ => (0, 0))
          (.response ⟨404, ⟨none, []⟩⟩) =
        [Effect.sidebarWrite ("🔄 Processing " ++ "tower1.jpg" ++ "..."),
         Effect.saveUpload (RESULTS_FOLDER ++ "/" ++ "tower1.jpg"),
         Effect.sidebarError ("❌ API Error: " ++ toString (404 : Nat))] ∧
      (∀ rows, Effect.csvAppend rows ∉
        process_image "tower1.jpg" none (fun _ _ _ => (0, 0))
          (.response ⟨404, ⟨none, []⟩⟩)) ∧
      (∀ p cmds, Effect.imwrite p cmds ∉
        process_image "tower1.jpg" none (fun _ _ _ => (0, 0))
          (.response ⟨404, ⟨none, []⟩⟩))) :=
  ⟨by decide,
   C5_non_200_no_output "tower1.jpg" none (fun _ _ _ => (0, 0)) ⟨404, ⟨none, []⟩⟩
     (by decide)⟩

/-- C6: an exception raised inside the try block (`processTry` returning
`error`) is caught by `process_image`, which still returns a plain effect
list ending in the error report carrying the exception's message; batch
processing of surrounding images is unaffected — the batch is always the
concatenation of each image's own effects. -/
theorem C6_exception_caught (name : String) (img : Option Image)
    (gts : String → Rat → Nat → Nat × Nat) (t : TryInput)
    (pre : List Effect) (msg : String)
    (h : processTry name img gts t = .error (pre, msg)) :
    process_image name img gts t =
      Effect.sidebarWrite ("🔄 Processing " ++ name ++ "...") ::
        (pre ++ [Effect.sidebarError ("⚠️ Error processing image: " ++ msg)]) ∧
    ∀ before after : List (String × Option Image × TryInput),
      processBatch gts (before ++ (name, img, t) :: after) =
        processBatch gts before ++ process_image name img gts t ++
          processBatch gts after := by
  constructor
  · simp [process_image, h]
  · intro before after
    induction before with
    | nil => simp [processBatch]
    | cons x xs ih => simp [processBatch, ih]

theorem C6_witness :
    processTry "a.jpg" none (fun _ _ _ => (0, 0)) (.raised [] "boom") =
      .error ([], "boom") ∧
    (process_image "a.jpg" none (fun _ _ _ => (0, 0)) (.raised [] "boom") =
      Effect.sidebarWrite ("🔄 Processing " ++ "a.jpg" ++ "...") ::
        ([] ++ [Effect.sidebarError ("⚠️ Error processing image: " ++ "boom")]) ∧
    ∀ before after : List (String × Option Image × TryInput),
      processBatch (fun _ _ _ => (0, 0))
          (before ++ ("a.jpg", none, .raised [] "boom") :: after) =
        processBatch (fun _ _ _ => (0, 0)) before ++
          process_image "a.jpg" none (fun _ _ _ => (0, 0)) (.raised [] "boom") ++
          processBatch (fun _ _ _ => (0, 0)) after) :=
  ⟨rfl, C6_exception_caught "a.jpg" none (fun _ _ _ => (0, 0))
    (.raised [] "boom") [] "boom" rfl⟩

/-- C8: when the image cannot be loaded, `draw_bounding_boxes` returns
`none` rather than raising, and the success path of `process_image` then
stops after the table — no annotated-image write, no image display, no
download button, and no error message. -/
theorem C8_unreadable_image_skipped (name : String)
    (gts : String → Rat → Nat → Nat × Nat) (dets : List Detection)
    (r : HttpResponse) (h200 : r.status_code = 200)
    (hdets : r.body.antenna_detections ≠ []) :
    draw_bounding_boxes none dets gts = none ∧
    process_image name none gts (.response r) =
      [Effect.sidebarWrite ("🔄 Processing " ++ name ++ "..."),
       Effect.saveUpload (RESULTS_FOLDER ++ "/" ++ name),
       Effect.csvAppend (save_results_to_csv name
         (pyStrip (r.body.all_text.getD "")) r.body.antenna_detections),
       Effect.sidebarSuccess ("✅ Processed: " ++ name),
       Effect.showText (if pyStrip (r.body.all_text.getD "") ≠ ""
         then pyStrip (r.body.all_text.getD "") else "No text found"),
       Effect.showTable r.body.antenna_detections] := by
  refine ⟨rfl, ?_⟩
  obtain ⟨d, ds, hd⟩ := List.exists_cons_of_ne_nil hdets
  simp [process_image, processTry, h200, successEffects, hd, draw_bounding_boxes]

theorem C8_witness :
    (200 : Nat) = 200 ∧
      (⟨200, ⟨some "TWR-001", [panelDetection]⟩⟩ : HttpResponse).body.antenna_detections ≠ [] ∧
      (draw_bounding_boxes none [panelDetection] (fun _ _ _ => (0, 0)) = none ∧
      process_image "b.jpg" none (fun _ _ _ => (0, 0))
          (.response ⟨200, ⟨some "TWR-001", [panelDetection]⟩⟩) =
        [Effect.sidebarWrite ("🔄 Processing " ++ "b.jpg" ++ "..."),
         Effect.saveUpload (RESULTS_FOLDER ++ "/" ++ "b.jpg"),
         Effect.csvAppend (save_results_to_csv "b.jpg"
           (pyStrip ((some "TWR-001").getD ""))
           [panelDetection]),
         Effect.sidebarSuccess ("✅ Processed: " ++ "b.jpg"),
         Effect.showText (if pyStrip ((some "TWR-001").getD "") ≠ ""
           then pyStrip ((some "TWR-001").getD "") else "No text found"),
         Effect.showTable [panelDetection]]) :=
  ⟨rfl, by decide,
   C8_unreadable_image_skipped "b.jpg" (fun _ _ _ => (0, 0)) [panelDetection]
     ⟨200, ⟨some "TWR-001", [panelDetection]⟩⟩ rfl (by decide)⟩

/-- C9: the `all_text` field is stripped before any use, so a
whitespace-only (or absent, defaulted to `""`) text yields the empty
string, and the text row written is the `No text found` row, exactly as
for an empty extracted text. -/
theorem C9_whitespace_is_no_text (name : String) (resp : ApiResponse)
    (h : ∀ c ∈ (resp.all_text.getD "").data, pyWhitespace c = true) :
    pyStrip (resp.all_text.getD "") = "" ∧
    textRow name (pyStrip (resp.all_text.getD "")) =
      name ++ ",No text found,,,, " ∧
    textRow name (pyStrip (resp.all_text.getD "")) = textRow name "" := by
  have hempty : pyStrip (resp.all_text.getD "") = "" := by
    unfold pyStrip
    have h1 : (resp.all_text.getD "").data.dropWhile pyWhitespace = [] :=
      List.dropWhile_eq_nil_iff.mpr (by simpa using h)
    rw [h1]
    rfl
  rw [hempty]
  exact ⟨rfl, by simp [textRow], by simp [textRow]⟩

theorem C9_witness :
    (∀ c ∈ ((some " \t " : Option String).getD "").data, pyWhitespace c = true) ∧
    (pyStrip ((some " \t " : Option String).getD "") = "" ∧
     textRow "c.jpg" (pyStrip ((some " \t " : Option String).getD "")) =
       "c.jpg" ++ ",No text found,,,, " ∧
     textRow "c.jpg" (pyStrip ((some " \t " : Option String).getD "")) =
       textRow "c.jpg" "") :=
  ⟨by decide, C9_whitespace_is_no_text "c.jpg" ⟨some " \t ", []⟩ (by decide)⟩

end TowerAI

namespace TowerAI

/-- Each call of `splitCommaAux` produces one field per comma plus one. -/
theorem splitCommaAux_length (l : List Char) :
    ∀ acc, (splitCommaAux l acc).length = l.count ',' + 1 := by
  induction l with
  | nil => intro acc; simp [splitCommaAux]
  | cons c cs ih =>
    intro acc
    by_cases hc : c = ','
    · subst hc
      simp [splitCommaAux, ih, List.count_cons]
    · simp [splitCommaAux, hc, ih, List.count_cons]

/-- A CSV line has one more field than it has commas. -/
theorem numFields_eq_count (s : String) :
    numFields s = s.data.count ',' + 1 :=
  splitCommaAux_length s.data []

/-- C10: the recorder writes fields verbatim with no CSV quoting, so a
text row whose extracted text contains a comma has more than the six
fields of the documented column schema, a detection row whose class name
contains a comma has more than six, and the text row has exactly six only
when image name and text are comma-free. -/
theorem C10_no_quoting_field_counts :
    (∀ image_name extracted_text : String, ',' ∈ extracted_text.data →
      6 < numFields (textRow image_name extracted_text)) ∧
    (∀ (image_name : String) (total : Nat) (d : Detection),
      ',' ∈ d.class_name.data →
      6 < numFields (detectionRow image_name total d)) ∧
    (∀ image_name extracted_text : String, extracted_text ≠ "" →
      ',' ∉ image_name.data → ',' ∉ extracted_text.data →
      numFields (textRow image_name extracted_text) = 6) := by
  refine ⟨?_, ?_, ?_⟩
  · intro n t hmem
    have ht : t ≠ "" := by
      intro h
      rw [h] at hmem
      simp at hmem
    have hcount : 0 < t.data.count ',' := List.count_pos_iff.mpr hmem
    rw [numFields_eq_count]
    simp [textRow, ht, String.data_append, List.count_append]
    omega
  · intro n total d hmem
    have hcount : 0 < d.class_name.data.count ',' := List.count_pos_iff.mpr hmem
    rw [numFields_eq_count]
    simp [detectionRow, String.data_append, List.count_append]
    omega
  · intro n t ht hn htc
    have hn0 : n.data.count ',' = 0 := List.count_eq_zero.mpr hn
    have ht0 : t.data.count ',' = 0 := List.count_eq_zero.mpr htc
    rw [numFields_eq_count]
    simp [textRow, ht, String.data_append, List.count_append, hn0, ht0]

theorem C10_witness :
    ',' ∈ ("x,y" : String).data ∧
    6 < numFields (textRow "a.jpg" "x,y") ∧
    numFields (textRow "a.jpg" "xy") = 6 :=
  ⟨by decide,
   C10_no_quoting_field_counts.1 "a.jpg" "x,y" (by decide),
   C10_no_quoting_field_counts.2.2 "a.jpg" "xy" (by decide) (by decide) (by decide)⟩

end TowerAI

namespace TowerAI

/-- The last character of a CSV line, used to separate data rows from the
header: text rows end in a space, `No detection` rows in `A`, detection
rows in a digit, while the header ends in `e`. -/
def lastChar (s : String) : Option Char := s.data.getLast?

theorem lastChar_append (a b : String) (h : b.data ≠ []) :
    lastChar (a ++ b) = lastChar b := by
  unfold lastChar
  rw [String.data_append]
  exact List.getLast?_append_of_ne_nil _ h

theorem digitChar_ne_e (m : Nat) : digitChar m ≠ 'e' := by
  unfold digitChar
  have h10 : m % 10 = 0 ∨ m % 10 = 1 ∨ m % 10 = 2 ∨ m % 10 = 3 ∨ m % 10 = 4 ∨
      m % 10 = 5 ∨ m % 10 = 6 ∨ m % 10 = 7 ∨ m % 10 = 8 ∨ m % 10 = 9 := by omega
  rcases h10 with h | h | h | h | h | h | h | h | h | h <;> rw [h] <;> decide

theorem header_lastChar : lastChar headerLine = some 'e' := by decide

theorem textRow_lastChar (n t : String) : lastChar (textRow n t) = some ' ' := by
  unfold textRow
  split
  · rw [lastChar_append (n ++ "," ++ t) ",,,, " (by decide)]
    decide
  · rw [lastChar_append n ",No text found,,,, " (by decide)]
    decide

theorem mkTwo_lastChar (a : String) (c1 c2 : Char) :
    lastChar (a ++ String.mk [c1, c2]) = some c2 := by
  rw [lastChar_append a (String.mk [c1, c2]) (by simp)]
  rfl

theorem fmt2f_lastChar (q : Rat) :
    lastChar (fmt2f q) =
      some (digitChar ((200 * q.num + (q.den : Int)) / (2 * (q.den : Int))).toNat) :=
  mkTwo_lastChar _ _ _

theorem fmt2f_data_ne_nil (q : Rat) : (fmt2f q).data ≠ [] := by
  intro h
  have h2 : lastChar (fmt2f q) = none := by
    unfold lastChar
    rw [h]
    rfl
  rw [fmt2f_lastChar] at h2
  exact Option.noConfusion h2

theorem detectionRow_lastChar (n : String) (total : Nat) (d : Detection) :
    ∃ m, lastChar (detectionRow n total d) = some (digitChar m) := by
  refine ⟨((200 * d.confidence.num + (d.confidence.den : Int)) /
    (2 * (d.confidence.den : Int))).toNat, ?_⟩
  unfold detectionRow
  rw [lastChar_append _ (fmt2f d.confidence) (fmt2f_data_ne_nil _)]
  exact fmt2f_lastChar _

theorem textRow_ne_header (n t : String) : textRow n t ≠ headerLine := by
  intro h
  have h2 := congrArg lastChar h
  rw [textRow_lastChar, header_lastChar] at h2
  exact absurd (Option.some.inj h2) (by decide)

theorem noDetectionRow_ne_header (n : String) :
    n ++ ",,0,No detection,N/A,N/A" ≠ headerLine := by
  intro h
  have h2 := congrArg lastChar h
  rw [lastChar_append n ",,0,No detection,N/A,N/A" (by decide), header_lastChar] at h2
  exact absurd (Option.some.inj h2) (by decide)

theorem detectionRow_ne_header (n : String) (total : Nat) (d : Detection) :
    detectionRow n total d ≠ headerLine := by
  intro h
  obtain ⟨m, hm⟩ := detectionRow_lastChar n total d
  have h2 := congrArg lastChar h
  rw [hm, header_lastChar] at h2
  exact digitChar_ne_e m (Option.some.inj h2)

/-- No line `save_results_to_csv` ever appends equals the header line. -/
theorem header_notin_save (n t : String) (ds : List Detection) :
    headerLine ∉ save_results_to_csv n t ds := by
  intro hmem
  rcases List.mem_cons.mp hmem with h | h
  · exact textRow_ne_header n t h.symm
  · unfold detectionRows at h
    match ds, h with
    | [], h =>
        rcases List.mem_singleton.mp h with h
        exact noDetectionRow_ne_header n h.symm
    | d :: rest, h =>
        obtain ⟨d2, _, hd2⟩ := List.mem_map.mp h
        exact detectionRow_ne_header n (d :: rest).length d2 hd2

theorem appendSaves_suffix (calls : List SaveCall) :
    ∀ ls : List String, ∃ suffix, appendSaves ls calls = ls ++ suffix := by
  induction calls with
  | nil => exact fun ls => ⟨[], by simp [appendSaves]⟩
  | cons c cs ih =>
    intro ls
    obtain ⟨suf, hsuf⟩ :=
      ih (ls ++ save_results_to_csv c.image_name c.extracted_text c.detections)
    refine ⟨save_results_to_csv c.image_name c.extracted_text c.detections ++ suf, ?_⟩
    simp only [appendSaves]
    rw [hsuf, List.append_assoc]

theorem appendSaves_header (calls : List SaveCall) :
    ∀ t : List String, headerLine ∉ t →
      ∃ t2, appendSaves (headerLine :: t) calls = headerLine :: t2 ∧
        headerLine ∉ t2 := by
  induction calls with
  | nil => exact fun t h => ⟨t, by simp [appendSaves], h⟩
  | cons c cs ih =>
    intro t h
    have hnotin : headerLine ∉
        t ++ save_results_to_csv c.image_name c.extracted_text c.detections := by
      intro hcon
      rcases List.mem_append.mp hcon with h1 | h1
      · exact h h1
      · exact header_notin_save _ _ _ h1
    obtain ⟨t2, h2, h3⟩ := ih _ hnotin
    refine ⟨t2, ?_, h3⟩
    simp only [appendSaves, List.cons_append]
    exact h2

theorem runAll_header (rest : List (List SaveCall)) :
    ∀ t : List String, headerLine ∉ t →
      ∃ t2, runAll (some (headerLine :: t)) rest = some (headerLine :: t2) ∧
        headerLine ∉ t2 := by
  induction rest with
  | nil => exact fun t h => ⟨t, rfl, h⟩
  | cons calls rs ih =>
    intro t h
    obtain ⟨t1, h1, h1n⟩ := appendSaves_header calls t h
    obtain ⟨t2, h2, h2n⟩ := ih t1 h1n
    refine ⟨t2, ?_, h2n⟩
    simp only [runAll, runOnce, initCsv]
    rw [h1]
    exact h2

/-- C4: starting from a non-existent file, any non-empty sequence of runs
produces a file whose first line is the header and in which the header
occurs nowhere else (written exactly once, at the first run), and every
`save_results_to_csv` call is a pure append, leaving existing lines as a
prefix. -/
theorem C4_header_written_once (runsList : List (List SaveCall))
    (h : runsList ≠ []) :
    (∃ t, runAll none runsList = some (headerLine :: t) ∧ headerLine ∉ t) ∧
    (∀ (ls : List String) (calls : List SaveCall),
      ∃ suffix, appendSaves ls calls = ls ++ suffix) := by
  constructor
  · obtain ⟨calls, rest, rfl⟩ := List.exists_cons_of_ne_nil h
    obtain ⟨t1, h1, h1n⟩ := appendSaves_header calls [] (by simp)
    obtain ⟨t2, h2, h2n⟩ := runAll_header rest t1 h1n
    refine ⟨t2, ?_, h2n⟩
    simp only [runAll, runOnce, initCsv]
    rw [show appendSaves [headerLine] calls = headerLine :: t1 from h1]
    exact h2
  · intro ls calls
    exact appendSaves_suffix calls ls

theorem C4_witness :
    ([[], []] : List (List SaveCall)) ≠ [] ∧
    ((∃ t, runAll none [[], []] = some (headerLine :: t) ∧ headerLine ∉ t) ∧
     (∀ (ls : List String) (calls : List SaveCall),
       ∃ suffix, appendSaves ls calls = ls ++ suffix)) :=
  ⟨by simp, C4_header_written_once [[], []] (by simp)⟩

end TowerAI
